import Mathlib

/-!
Shallow embedding of the balance-consistency core of the
`sobou-algo-para-os-betas` personal-finance API (FastAPI + SQLAlchemy +
Pydantic, directory `leileiamor/`).

Modelling conventions:
* Monetary values (`Numeric(10,2)` columns, pydantic `Decimal` fields) are
  integers in minor units (cents).  All decimal arithmetic of the source
  (`Decimal(str(v))` conversions, `+=`/`-=` on `Numeric(10,2)` columns) is
  exact on such values, so `Int` addition models it exactly.
* A database session/commit cycle is a pure function `DB → result × DB`.
  A handler that raises `HTTPException` before `db.commit()` leaves the
  store unchanged (the session is closed without committing), so every
  error branch returns the input `DB` unchanged.
* Pydantic request validation (`Field` constraints) runs before the
  handler body; the `*_endpoint` wrappers model it.
* SQLAlchemy specifics that matter are modelled where they occur and are
  noted with comments at the definition site (cascade rules declared on the
  ORM models; the behaviour of a loaded relationship attribute after its
  foreign-key column is reassigned).
-/

/-- Monetary amount in minor units (cents); `Numeric(10,2)` is exact. -/
abbrev Money := Int

/-- `app/models/conta.py`: table `conta`. -/
structure Conta where
  id_conta : Nat
  nome : String
  saldo : Money
  tipo : String
  id_usuario : Nat
deriving DecidableEq, Repr

/-- `app/models/categoria.py`: table `categoria`. -/
structure Categoria where
  id_categoria : Nat
  nome : String
  tipo : String
  id_usuario : Nat
deriving DecidableEq, Repr

/-- `app/models/transacao.py`: table `transacao`.  The calendar date is an
opaque day number; no claim depends on date structure. -/
structure Transacao where
  id_transacao : Nat
  valor : Money
  data : Nat
  descricao : Option String
  tipo : String
  id_usuario : Nat
  id_conta : Nat
  id_categoria : Nat
deriving DecidableEq, Repr

/-- `app/models/usuario.py`: table `usuario`. -/
structure Usuario where
  id_usuario : Nat
  nome : String
  email : String
  senha : String
deriving DecidableEq, Repr

/-- The ledger store: the four tables. -/
structure DB where
  usuarios : List Usuario
  contas : List Conta
  categorias : List Categoria
  transacoes : List Transacao
deriving DecidableEq, Repr

/-- Failure taxonomy surfaced by the handlers.
`notFound` = HTTP 404, `badRequest` = HTTP 400 (kind mismatch / duplicate
email), `forbidden` = HTTP 403, `validationError` = pydantic 422,
`internal` = an uncaught Python exception (HTTP 500). -/
inductive ApiError where
  | notFound (detail : String)
  | badRequest (detail : String)
  | forbidden (detail : String)
  | validationError
  | internal
deriving DecidableEq, Repr

/-- `db.query(Conta).filter(Conta.id_conta == id, Conta.id_usuario == uid).first()` -/
def findConta (db : DB) (id uid : Nat) : Option Conta :=
  db.contas.find? fun c => c.id_conta == id && c.id_usuario == uid

/-- Loading the `conta` relationship of a transaction: the row whose primary
key equals the foreign key, with no owner filter. -/
def findContaById (db : DB) (id : Nat) : Option Conta :=
  db.contas.find? fun c => c.id_conta == id

/-- `db.query(Categoria).filter(Categoria.id_categoria == id, Categoria.id_usuario == uid).first()` -/
def findCategoria (db : DB) (id uid : Nat) : Option Categoria :=
  db.categorias.find? fun g => g.id_categoria == id && g.id_usuario == uid

/-- Loading the `categoria` relationship of a transaction (by primary key). -/
def findCategoriaById (db : DB) (id : Nat) : Option Categoria :=
  db.categorias.find? fun g => g.id_categoria == id

/-- `db.query(Transacao).filter(Transacao.id_transacao == id, Transacao.id_usuario == uid).first()` -/
def findTransacao (db : DB) (id uid : Nat) : Option Transacao :=
  db.transacoes.find? fun t => t.id_transacao == id && t.id_usuario == uid

/-- Fresh primary key for an insert (`Integer, primary_key=True` sequence:
strictly greater than every existing id). -/
def nextTransacaoId (db : DB) : Nat :=
  db.transacoes.foldr (fun t m => max t.id_transacao m) 0 + 1

/-- Fresh primary key for an account insert. -/
def nextContaId (db : DB) : Nat :=
  db.contas.foldr (fun c m => max c.id_conta m) 0 + 1

/-- Signed contribution of a (tipo, valor) pair to an account balance:
`conta.saldo += valor` when `tipo == "receita"`, `conta.saldo -= valor`
otherwise (`transacoes.py` lines 124-127, 197-207, 239-242). -/
def signedDelta (tipo : String) (valor : Money) : Money :=
  if tipo = "receita" then valor else -valor

/-- Committing an in-place mutation `conta.saldo += d` of the session object
whose primary key is `cid`: the stored row with that key gets the delta. -/
def applyDelta (db : DB) (cid : Nat) (d : Money) : DB :=
  { db with contas := db.contas.map fun c =>
      if c.id_conta = cid then { c with saldo := c.saldo + d } else c }

-- ===========================================================================
-- Pydantic schemas (`app/schemas/schemas.py`) and their Field constraints
-- ===========================================================================

/-- `TransacaoCreate` (= `TransacaoBase`). -/
structure TransacaoCreate where
  valor : Money
  data : Nat
  descricao : Option String
  tipo : String
  id_conta : Nat
  id_categoria : Nat
deriving DecidableEq, Repr

/-- `TransacaoUpdate`: every field optional, `exclude_unset` semantics
(`none` = field absent from the request body). -/
structure TransacaoUpdate where
  valor : Option Money := none
  data : Option Nat := none
  descricao : Option String := none
  tipo : Option String := none
  id_conta : Option Nat := none
  id_categoria : Option Nat := none
deriving DecidableEq, Repr

/-- `ContaCreate` (= `ContaBase`); `saldo` defaults to `Decimal("0.00")`
at parse time, so a parsed request always carries a concrete value. -/
structure ContaCreate where
  nome : String
  tipo : String
  saldo : Money := 0
deriving DecidableEq, Repr

/-- `ContaUpdate`: optional fields, `exclude_unset` semantics. -/
structure ContaUpdate where
  nome : Option String := none
  tipo : Option String := none
  saldo : Option Money := none
deriving DecidableEq, Repr

/-- `pattern="^(receita|despesa)$"` on the `tipo` fields. -/
def tipoPatternOk (s : String) : Bool :=
  s == "receita" || s == "despesa"

/-- `min_length`/`max_length` bounds on a string field. -/
def lenBetween (s : String) (lo hi : Nat) : Bool :=
  lo ≤ s.length && s.length ≤ hi

/-- `TransacaoBase` field constraints: `valor` strictly positive (`gt=0`),
`tipo` matches the pattern, ids strictly positive, `descricao` at most 255
characters. -/
def transacaoCreateValid (d : TransacaoCreate) : Bool :=
  decide (0 < d.valor) && tipoPatternOk d.tipo &&
  decide (0 < d.id_conta) && decide (0 < d.id_categoria) &&
  (match d.descricao with
   | none => true
   | some s => decide (s.length ≤ 255))

/-- `TransacaoUpdate` field constraints (each applies only when the field is
present). -/
def transacaoUpdateValid (d : TransacaoUpdate) : Bool :=
  (match d.valor with
   | none => true
   | some v => decide (0 < v)) &&
  (match d.tipo with
   | none => true
   | some s => tipoPatternOk s) &&
  (match d.id_conta with
   | none => true
   | some n => decide (0 < n)) &&
  (match d.id_categoria with
   | none => true
   | some n => decide (0 < n)) &&
  (match d.descricao with
   | none => true
   | some s => decide (s.length ≤ 255))

/-- `ContaBase` field constraints: `nome` 1..100 chars, `tipo` 1..50 chars,
`saldo` non-negative (`ge=0`). -/
def contaCreateValid (d : ContaCreate) : Bool :=
  lenBetween d.nome 1 100 && lenBetween d.tipo 1 50 && decide (0 ≤ d.saldo)

/-- `ContaUpdate` field constraints (each applies only when present);
`saldo` non-negative (`ge=0`). -/
def contaUpdateValid (d : ContaUpdate) : Bool :=
  (match d.nome with
   | none => true
   | some s => lenBetween s 1 100) &&
  (match d.tipo with
   | none => true
   | some s => lenBetween s 1 50) &&
  (match d.saldo with
   | none => true
   | some v => decide (0 ≤ v))

-- ===========================================================================
-- Transaction handlers (`app/routers/transacoes.py`)
-- ===========================================================================

/-- `create_transacao` (`transacoes.py` lines 70-133): validate account
ownership, category ownership, kind match; then build the row, apply the
signed delta to the account, and commit both writes together. -/
def create_transacao (uid : Nat) (d : TransacaoCreate) (db : DB) :
    Except ApiError Transacao × DB :=
  match findConta db d.id_conta uid with
  | none =>
    (.error (.notFound ("Conta com ID " ++ toString d.id_conta ++ " não encontrada")), db)
  | some _conta =>
    match findCategoria db d.id_categoria uid with
    | none =>
      (.error (.notFound ("Categoria com ID " ++ toString d.id_categoria ++ " não encontrada")), db)
    | some categoria =>
      if d.tipo ≠ categoria.tipo then
        (.error (.badRequest ("Tipo da transação (" ++ d.tipo ++
          ") não corresponde ao tipo da categoria (" ++ categoria.tipo ++ ")")), db)
      else
        let t : Transacao :=
          { id_transacao := nextTransacaoId db
            valor := d.valor
            data := d.data
            descricao := d.descricao
            tipo := d.tipo
            id_usuario := uid
            id_conta := d.id_conta
            id_categoria := d.id_categoria }
        let db1 := applyDelta db d.id_conta (signedDelta d.tipo d.valor)
        (.ok t, { db1 with transacoes := db1.transacoes ++ [t] })

/-- The 404 checks of `update_transacao` on a newly supplied category
(`transacoes.py` lines 180-189).  Note: only existence/ownership is
checked; the category's `tipo` is never compared with the transaction's. -/
def checkUpdateCategoria (uid : Nat) (d : TransacaoUpdate) (db : DB) : Option ApiError :=
  match d.id_categoria with
  | none => none
  | some ncid =>
    match findCategoria db ncid uid with
    | none => some (.notFound ("Categoria com ID " ++ toString ncid ++ " não encontrada"))
    | some _ => none

/-- The 404 checks of `update_transacao` on a newly supplied account, then
category (`transacoes.py` lines 168-189).  The looked-up rows are bound to
`nova_conta`/`nova_categoria` in the source and never used again. -/
def checkUpdateRefs (uid : Nat) (d : TransacaoUpdate) (db : DB) : Option ApiError :=
  match d.id_conta with
  | none => checkUpdateCategoria uid d db
  | some nid =>
    match findConta db nid uid with
    | none => some (.notFound ("Conta com ID " ++ toString nid ++ " não encontrada"))
    | some _ => checkUpdateCategoria uid d db

/-- `for field, value in update_data.items(): setattr(transacao, field, value)`
(`transacoes.py` lines 191-193): overwrite exactly the supplied fields. -/
def update_applyFields (transacao : Transacao) (d : TransacaoUpdate) : Transacao :=
  { transacao with
    valor := d.valor.getD transacao.valor
    data := d.data.getD transacao.data
    descricao := match d.descricao with
      | some s => some s
      | none => transacao.descricao
    tipo := d.tipo.getD transacao.tipo
    id_conta := d.id_conta.getD transacao.id_conta
    id_categoria := d.id_categoria.getD transacao.id_categoria }

/-- The balance recalculation of `update_transacao`
(`transacoes.py` lines 195-211); `transacao` is the pre-update row, `t'`
the row after `setattr`.

`conta_antiga = transacao.conta` (line 161) loads the relationship before
any field changes; if no row matches the foreign key the attribute is
`None` and line 198/200 raises `AttributeError` (HTTP 500).

`conta_nova = transacao.conta` (line 203) re-reads the SAME already-loaded
relationship attribute: the session runs with `autoflush=False` and nothing
flushes or expires the object between the `setattr` of `id_conta` and this
access, and SQLAlchemy does not refresh a loaded relationship when only its
foreign-key column attribute is reassigned.  So `conta_nova` is the same
row object as `conta_antiga` — the OLD account — even when `id_conta`
changed; both half-steps hit the old account's balance, while the
transaction row itself is committed with the new foreign key. -/
def update_recalc (db : DB) (transacao t' : Transacao) :
    Except ApiError Transacao × DB :=
  match findContaById db transacao.id_conta with
  | none => (.error .internal, db)
  | some _conta_antiga =>
    let db1 := applyDelta db transacao.id_conta (-(signedDelta transacao.tipo transacao.valor))
    let db2 := applyDelta db1 transacao.id_conta (signedDelta t'.tipo t'.valor)
    (.ok t',
      { db2 with transacoes := db2.transacoes.map fun x =>
          if x.id_transacao = transacao.id_transacao then t' else x })

/-- `update_transacao` (`transacoes.py` lines 136-212). -/
def update_transacao (uid tid : Nat) (d : TransacaoUpdate) (db : DB) :
    Except ApiError Transacao × DB :=
  match findTransacao db tid uid with
  | none =>
    (.error (.notFound ("Transação com ID " ++ toString tid ++ " não encontrada")), db)
  | some transacao =>
    match checkUpdateRefs uid d db with
    | some e => (.error e, db)
    | none => update_recalc db transacao (update_applyFields transacao d)

/-- `delete_transacao` (`transacoes.py` lines 215-250): reverse the signed
delta on the referenced account (`conta = transacao.conta`), then delete
the row, in one commit. -/
def delete_transacao (uid tid : Nat) (db : DB) :
    Except ApiError String × DB :=
  match findTransacao db tid uid with
  | none =>
    (.error (.notFound ("Transação com ID " ++ toString tid ++ " não encontrada")), db)
  | some transacao =>
    match findContaById db transacao.id_conta with
    | none => (.error .internal, db)
    | some _conta =>
      let db1 := applyDelta db transacao.id_conta (-(signedDelta transacao.tipo transacao.valor))
      (.ok "Transação deletada com sucesso",
        { db1 with transacoes :=
            db1.transacoes.filter fun x => x.id_transacao != transacao.id_transacao })

/-- `POST /transacoes/` including pydantic body validation. -/
def create_transacao_endpoint (uid : Nat) (d : TransacaoCreate) (db : DB) :
    Except ApiError Transacao × DB :=
  if transacaoCreateValid d then create_transacao uid d db
  else (.error .validationError, db)

/-- `PUT /transacoes/{id}` including pydantic body validation. -/
def update_transacao_endpoint (uid tid : Nat) (d : TransacaoUpdate) (db : DB) :
    Except ApiError Transacao × DB :=
  if transacaoUpdateValid d then update_transacao uid tid d db
  else (.error .validationError, db)

-- ===========================================================================
-- Account handlers (`app/routers/contas.py`)
-- ===========================================================================

/-- `create_conta` (`contas.py` lines 56-79): insert a new account with the
supplied fields, including the initial `saldo`. -/
def create_conta (uid : Nat) (d : ContaCreate) (db : DB) :
    Except ApiError Conta × DB :=
  let c : Conta :=
    { id_conta := nextContaId db
      nome := d.nome
      saldo := d.saldo
      tipo := d.tipo
      id_usuario := uid }
  (.ok c, { db with contas := db.contas ++ [c] })

/-- `update_conta` (`contas.py` lines 82-112): generic field setter — every
supplied field, INCLUDING `saldo`, is written through `setattr` with no
reference to the transaction history. -/
def update_conta (uid cid : Nat) (d : ContaUpdate) (db : DB) :
    Except ApiError Conta × DB :=
  match findConta db cid uid with
  | none =>
    (.error (.notFound ("Conta com ID " ++ toString cid ++ " não encontrada")), db)
  | some conta =>
    let conta' : Conta :=
      { conta with
        nome := d.nome.getD conta.nome
        tipo := d.tipo.getD conta.tipo
        saldo := d.saldo.getD conta.saldo }
    (.ok conta',
      { db with contas := db.contas.map fun c =>
          if c.id_conta = conta.id_conta then conta' else c })

/-- `POST /contas/` including pydantic body validation. -/
def create_conta_endpoint (uid : Nat) (d : ContaCreate) (db : DB) :
    Except ApiError Conta × DB :=
  if contaCreateValid d then create_conta uid d db
  else (.error .validationError, db)

/-- `PUT /contas/{id}` including pydantic body validation. -/
def update_conta_endpoint (uid cid : Nat) (d : ContaUpdate) (db : DB) :
    Except ApiError Conta × DB :=
  if contaUpdateValid d then update_conta uid cid d db
  else (.error .validationError, db)

-- ===========================================================================
-- Category and user deletion (`app/routers/categorias.py`, `usuarios.py`)
-- ===========================================================================

/-- `delete_categoria` (`categorias.py` lines 119-146): `db.delete(categoria)`
with `cascade="all, delete-orphan"` declared on `Categoria.transacoes`
(`app/models/categoria.py` line 23): every `Transacao` row referencing the
category is deleted together with it.  No account balance is touched. -/
def delete_categoria (uid cid : Nat) (db : DB) :
    Except ApiError String × DB :=
  match findCategoria db cid uid with
  | none =>
    (.error (.notFound ("Categoria com ID " ++ toString cid ++ " não encontrada")), db)
  | some _categoria =>
    (.ok "Categoria deletada com sucesso",
      { db with
        transacoes := db.transacoes.filter fun t => t.id_categoria != cid
        categorias := db.categorias.filter fun g => g.id_categoria != cid })

/-- `delete_usuario` (`usuarios.py` lines 141-172): only the user itself may
delete its record (403 otherwise); `db.delete(usuario)` cascades through
`Usuario.contas`, `Usuario.categorias`, `Usuario.transacoes`
(`app/models/usuario.py` lines 22-24), and through each owned account's and
category's own `transacoes` cascade, removing every transaction that the
user owns or that references an account or category the user owns. -/
def delete_usuario (currentUid uid : Nat) (db : DB) :
    Except ApiError String × DB :=
  if currentUid ≠ uid then
    (.error (.forbidden "Você não tem permissão para deletar este usuário"), db)
  else
    match db.usuarios.find? fun u => u.id_usuario == uid with
    | none =>
      (.error (.notFound ("Usuário com ID " ++ toString uid ++ " não encontrado")), db)
    | some _usuario =>
      let ownedConta : Nat → Bool := fun cid =>
        (db.contas.filter fun c => c.id_usuario == uid).any fun c => c.id_conta == cid
      let ownedCategoria : Nat → Bool := fun gid =>
        (db.categorias.filter fun g => g.id_usuario == uid).any fun g => g.id_categoria == gid
      (.ok "Usuário deletado com sucesso",
        { usuarios := db.usuarios.filter fun u => u.id_usuario != uid
          contas := db.contas.filter fun c => c.id_usuario != uid
          categorias := db.categorias.filter fun g => g.id_usuario != uid
          transacoes := db.transacoes.filter fun t =>
            !(t.id_usuario == uid || ownedConta t.id_conta || ownedCategoria t.id_categoria) })

-- ===========================================================================
-- The balance-consistency invariant and the ledger operations
-- ===========================================================================

/-- Net signed contribution of a transaction list to the account `cid`. -/
def contaSum (ts : List Transacao) (cid : Nat) : Money :=
  ((ts.filter fun t => t.id_conta == cid).map fun t => signedDelta t.tipo t.valor).sum

/-- Balance consistency relative to a seed (the balance each account was
created with): every stored balance equals its seed plus the net signed
contribution of the transactions currently referencing it. -/
def balanced (seed : Nat → Money) (db : DB) : Prop :=
  ∀ c ∈ db.contas, c.saldo = seed c.id_conta + contaSum db.transacoes c.id_conta

/-- The three mutating operations of the transaction ledger engine. -/
inductive LedgerOp where
  | createT (uid : Nat) (d : TransacaoCreate)
  | updateT (uid : Nat) (tid : Nat) (d : TransacaoUpdate)
  | deleteT (uid : Nat) (tid : Nat)
deriving DecidableEq, Repr

/-- The store state after running a ledger operation (a failed operation
commits nothing, so it returns the input state). -/
def opRun (op : LedgerOp) (db : DB) : DB :=
  match op with
  | .createT uid d => (create_transacao_endpoint uid d db).2
  | .updateT uid tid d => (update_transacao_endpoint uid tid d db).2
  | .deleteT uid tid => (delete_transacao uid tid db).2

/-- Whether a ledger operation leaves its transaction's account reference
unchanged: true for create and delete, and for an update whose body either
omits `id_conta` or resupplies the current value. -/
def opKeepsConta (op : LedgerOp) (db : DB) : Prop :=
  match op with
  | .updateT uid tid d =>
    match findTransacao db tid uid with
    | some t => d.id_conta = none ∨ d.id_conta = some t.id_conta
    | none => True
  | _ => True

/-- Did a handler result succeed? -/
def resultOk {α : Type} (r : Except ApiError α) : Bool :=
  match r with
  | .ok _ => true
  | .error _ => false

/-- Is a handler result a 404? -/
def resultNotFound {α : Type} (r : Except ApiError α) : Bool :=
  match r with
  | .error (.notFound _) => true
  | _ => false

/-- Is a handler result the kind-mismatch rejection (HTTP 400)? -/
def resultKindMismatch {α : Type} (r : Except ApiError α) : Bool :=
  match r with
  | .error (.badRequest _) => true
  | _ => false

instance decBalanced (seed : Nat → Money) (db : DB) : Decidable (balanced seed db) :=
  inferInstanceAs (Decidable (∀ c ∈ db.contas, c.saldo = seed c.id_conta + contaSum db.transacoes c.id_conta))

instance decOpKeepsConta (op : LedgerOp) (db : DB) : Decidable (opKeepsConta op db) := by
  unfold opKeepsConta
  cases op with
  | createT uid d => exact .isTrue trivial
  | deleteT uid tid => exact .isTrue trivial
  | updateT uid tid d =>
    dsimp only
    cases findTransacao db tid uid with
    | none => exact .isTrue trivial
    | some t => exact inferInstanceAs (Decidable (_ ∨ _))

/-- All-zero seed: every account in the example states is taken to have been
created with balance 0. -/
def zeroSeed : Nat → Money := fun _ => 0

-- ===========================================================================
-- Concrete example states used by witnesses and counterexamples
-- ===========================================================================

/-- Example user. -/
def exUsuario : Usuario :=
  { id_usuario := 1, nome := "João Silva", email := "joao@email.com", senha := "hash" }

/-- Example state for the C1 counterexample: accounts A (id 1) and B (id 2),
one income category, one income transaction of 100.00 on A; balances are
consistent with `zeroSeed`. -/
def C1db : DB :=
  { usuarios := [exUsuario]
    contas :=
      [ { id_conta := 1, nome := "A", saldo := 10000, tipo := "corrente", id_usuario := 1 },
        { id_conta := 2, nome := "B", saldo := 0, tipo := "corrente", id_usuario := 1 } ]
    categorias := [ { id_categoria := 1, nome := "Salário", tipo := "receita", id_usuario := 1 } ]
    transacoes :=
      [ { id_transacao := 1, valor := 10000, data := 10, descricao := none,
          tipo := "receita", id_usuario := 1, id_conta := 1, id_categoria := 1 } ] }

/-- The C1 counterexample request: move transaction 1 from account 1 to 2. -/
def C1upd : TransacaoUpdate := { id_conta := some 2 }

/-- The C1 witness request: change only the amount (account unchanged). -/
def C1wupd : TransacaoUpdate := { valor := some 3000 }

/-- Example state for the C2 failing input: one income category, one income
transaction; the update flips the transaction kind to `despesa` while the
category stays `receita`. -/
def C2db : DB :=
  { usuarios := [exUsuario]
    contas := [ { id_conta := 1, nome := "A", saldo := 10000, tipo := "corrente", id_usuario := 1 } ]
    categorias := [ { id_categoria := 1, nome := "Salário", tipo := "receita", id_usuario := 1 } ]
    transacoes :=
      [ { id_transacao := 1, valor := 10000, data := 10, descricao := none,
          tipo := "receita", id_usuario := 1, id_conta := 1, id_categoria := 1 } ] }

/-- The C2 failing request: set only `tipo := "despesa"`. -/
def C2upd : TransacaoUpdate := { tipo := some "despesa" }

/-- Example state for the C3 failing input — the spec's own reattribution
scenario: account A (id 1) has balance 100.00 after one income transaction
of 100.00; account B (id 2) has balance 0. -/
def C3db : DB :=
  { usuarios := [exUsuario]
    contas :=
      [ { id_conta := 1, nome := "A", saldo := 10000, tipo := "corrente", id_usuario := 1 },
        { id_conta := 2, nome := "B", saldo := 0, tipo := "corrente", id_usuario := 1 } ]
    categorias := [ { id_categoria := 1, nome := "Salário", tipo := "receita", id_usuario := 1 } ]
    transacoes :=
      [ { id_transacao := 1, valor := 10000, data := 10, descricao := none,
          tipo := "receita", id_usuario := 1, id_conta := 1, id_categoria := 1 } ] }

/-- The C3 failing request: move the transaction to account B. -/
def C3upd : TransacaoUpdate := { id_conta := some 2 }

/-- Example state for the C4 witness. -/
def C4db : DB :=
  { usuarios := [exUsuario]
    contas := [ { id_conta := 1, nome := "Checking", saldo := 700, tipo := "corrente", id_usuario := 1 } ]
    categorias := [ { id_categoria := 1, nome := "Salário", tipo := "receita", id_usuario := 1 } ]
    transacoes :=
      [ { id_transacao := 5, valor := 700, data := 1, descricao := none,
          tipo := "receita", id_usuario := 1, id_conta := 1, id_categoria := 1 } ] }

/-- The C4 witness create request: an income of 50.00. -/
def C4req : TransacaoCreate :=
  { valor := 5000, data := 2, descricao := some "bônus", tipo := "receita",
    id_conta := 1, id_categoria := 1 }

/-- C5 witness state (a): no account with id 9. -/
def C5dbA : DB :=
  { usuarios := [exUsuario], contas := [], categorias := [], transacoes := [] }

/-- C5 witness state (b): account exists, category 9 does not. -/
def C5dbB : DB :=
  { usuarios := [exUsuario]
    contas := [ { id_conta := 1, nome := "A", saldo := 0, tipo := "corrente", id_usuario := 1 } ]
    categorias := []
    transacoes := [] }

/-- C5 witness state (c): account and expense category exist. -/
def C5dbC : DB :=
  { usuarios := [exUsuario]
    contas := [ { id_conta := 1, nome := "A", saldo := 0, tipo := "corrente", id_usuario := 1 } ]
    categorias := [ { id_categoria := 1, nome := "Mercado", tipo := "despesa", id_usuario := 1 } ]
    transacoes := [] }

/-- C5 witness request: `kind=income` against the expense category. -/
def C5req : TransacaoCreate :=
  { valor := 2500, data := 3, descricao := none, tipo := "receita",
    id_conta := 1, id_categoria := 1 }

/-- C6 witness request: `amount = -10.00`. -/
def C6req : TransacaoCreate :=
  { valor := -1000, data := 3, descricao := none, tipo := "receita",
    id_conta := 1, id_categoria := 1 }

/-- C7 witness state: one account whose balance 50.00 is consistent with its
single income transaction. -/
def C7db : DB :=
  { usuarios := [exUsuario]
    contas := [ { id_conta := 1, nome := "A", saldo := 5000, tipo := "corrente", id_usuario := 1 } ]
    categorias := [ { id_categoria := 1, nome := "Salário", tipo := "receita", id_usuario := 1 } ]
    transacoes :=
      [ { id_transacao := 1, valor := 5000, data := 1, descricao := none,
          tipo := "receita", id_usuario := 1, id_conta := 1, id_categoria := 1 } ] }

/-- C8 witness state: two users, cross-referencing data. -/
def C8db : DB :=
  { usuarios :=
      [ exUsuario,
        { id_usuario := 2, nome := "Maria Souza", email := "maria@email.com", senha := "hash2" } ]
    contas :=
      [ { id_conta := 1, nome := "A", saldo := 1000, tipo := "corrente", id_usuario := 1 },
        { id_conta := 2, nome := "M", saldo := 2000, tipo := "poupanca", id_usuario := 2 } ]
    categorias :=
      [ { id_categoria := 1, nome := "Salário", tipo := "receita", id_usuario := 1 },
        { id_categoria := 2, nome := "Renda", tipo := "receita", id_usuario := 2 } ]
    transacoes :=
      [ { id_transacao := 1, valor := 1000, data := 1, descricao := none,
          tipo := "receita", id_usuario := 1, id_conta := 1, id_categoria := 1 },
        { id_transacao := 2, valor := 2000, data := 2, descricao := none,
          tipo := "receita", id_usuario := 2, id_conta := 2, id_categoria := 2 } ] }

/-- C10 witness update request: `saldo = -5.00`. -/
def C10upd : ContaUpdate := { saldo := some (-500) }

/-- C10 witness create request: `saldo = -5.00`. -/
def C10req : ContaCreate := { nome := "Nova", tipo := "corrente", saldo := -500 }

-- ===========================================================================
-- Claim theorems
-- ===========================================================================

/-- C9: deleting a category leaves every account row — in particular every
`saldo` — unchanged, even though the cascade removes the transactions of
that category without reversing their balance contributions. -/
theorem C9_delete_categoria_preserves_saldos (uid cid : Nat) (db : DB) :
    ((delete_categoria uid cid db).2).contas = db.contas := by
  unfold delete_categoria
  cases findCategoria db cid uid <;> rfl

/-- C6: a create-transaction request whose amount is ≤ 0 is rejected by
pydantic validation before the handler runs: the result is a
ValidationError and the store is unchanged. -/
theorem C6_nonpositive_amount_rejected (uid : Nat) (d : TransacaoCreate) (db : DB)
    (h : d.valor ≤ 0) :
    create_transacao_endpoint uid d db = (.error .validationError, db) := by
  have hv : transacaoCreateValid d = false := by
    unfold transacaoCreateValid
    have hd : decide (0 < d.valor) = false := by
      simp only [decide_eq_false_iff_not, not_lt]
      exact h
    simp [hd]
  unfold create_transacao_endpoint
  simp [hv]

/-- C6 witness: `amount = -10.00` is rejected with ValidationError on a
concrete store, which is left unchanged. -/
theorem C6_witness :
    C6req.valor ≤ 0 ∧
    create_transacao_endpoint 1 C6req C5dbA = (.error .validationError, C5dbA) :=
  ⟨by decide, C6_nonpositive_amount_rejected 1 C6req C5dbA (by decide)⟩

/-- C10: the account schemas constrain `saldo` with `ge=0`: an account
create carrying a negative balance, and an account update carrying a
negative balance, are both rejected with a ValidationError and commit
nothing. -/
theorem C10_negative_saldo_rejected :
    (∀ (uid : Nat) (d : ContaCreate) (db : DB), d.saldo < 0 →
      create_conta_endpoint uid d db = (.error .validationError, db)) ∧
    (∀ (uid cid : Nat) (d : ContaUpdate) (db : DB) (v : Money), d.saldo = some v → v < 0 →
      update_conta_endpoint uid cid d db = (.error .validationError, db)) := by
  constructor
  · intro uid d db h
    have hv : contaCreateValid d = false := by
      unfold contaCreateValid
      have hd : decide ((0 : Int) ≤ d.saldo) = false := by
        simp only [decide_eq_false_iff_not, not_le]
        exact h
      simp [hd]
    simp [create_conta_endpoint, hv]
  · intro uid cid d db v hs h
    have hv : contaUpdateValid d = false := by
      unfold contaUpdateValid
      rw [hs]
      have hd : decide ((0 : Int) ≤ v) = false := by
        simp only [decide_eq_false_iff_not, not_le]
        exact h
      simp [hd]
    simp [update_conta_endpoint, hv]

/-- C10 witness: creating an account with `saldo = -5.00` and updating an
account to `saldo = -5.00` are both rejected on concrete stores. -/
theorem C10_witness :
    (C10req.saldo < 0 ∧
      create_conta_endpoint 1 C10req C5dbA = (.error .validationError, C5dbA)) ∧
    (C10upd.saldo = some (-500) ∧ (-500 : Money) < 0 ∧
      update_conta_endpoint 1 1 C10upd C7db = (.error .validationError, C7db)) := by
  refine ⟨⟨by decide, ?_⟩, ⟨by decide, by decide, ?_⟩⟩
  · exact C10_negative_saldo_rejected.1 1 C10req C5dbA (by decide)
  · exact C10_negative_saldo_rejected.2 1 1 C10upd C7db (-500) (by decide) (by decide)

/-- C5: `create_transacao` fails with NotFound when the account does not
resolve for the calling user, fails with NotFound when the category does
not resolve, and fails with the kind-mismatch rejection when the supplied
kind differs from the resolved category's kind; in each case the store is
returned unchanged. -/
theorem C5_create_failure_cases (uid : Nat) (d : TransacaoCreate) (db : DB) :
    (findConta db d.id_conta uid = none →
      resultNotFound (create_transacao uid d db).1 = true ∧
      (create_transacao uid d db).2 = db) ∧
    (∀ c, findConta db d.id_conta uid = some c →
      findCategoria db d.id_categoria uid = none →
      resultNotFound (create_transacao uid d db).1 = true ∧
      (create_transacao uid d db).2 = db) ∧
    (∀ c g, findConta db d.id_conta uid = some c →
      findCategoria db d.id_categoria uid = some g → d.tipo ≠ g.tipo →
      resultKindMismatch (create_transacao uid d db).1 = true ∧
      (create_transacao uid d db).2 = db) := by
  refine ⟨?_, ?_, ?_⟩
  · intro h
    simp [create_transacao, h, resultNotFound]
  · intro c hc hg
    simp [create_transacao, hc, hg, resultNotFound]
  · intro c g hc hg hne
    simp [create_transacao, hc, hg, hne, resultKindMismatch]

/-- C5 witness: the three failure cases at concrete inputs — missing
account, missing category, and `kind=income` against an `expense`
category — each leaving the concrete store unchanged. -/
theorem C5_witness :
    (resultNotFound (create_transacao 1 C5req C5dbA).1 = true ∧
      (create_transacao 1 C5req C5dbA).2 = C5dbA) ∧
    (resultNotFound (create_transacao 1 C5req C5dbB).1 = true ∧
      (create_transacao 1 C5req C5dbB).2 = C5dbB) ∧
    (resultKindMismatch (create_transacao 1 C5req C5dbC).1 = true ∧
      (create_transacao 1 C5req C5dbC).2 = C5dbC) := by
  refine ⟨?_, ?_, ?_⟩
  · exact (C5_create_failure_cases 1 C5req C5dbA).1 (by decide)
  · exact (C5_create_failure_cases 1 C5req C5dbB).2.1
      { id_conta := 1, nome := "A", saldo := 0, tipo := "corrente", id_usuario := 1 }
      (by decide) (by decide)
  · exact (C5_create_failure_cases 1 C5req C5dbC).2.2
      { id_conta := 1, nome := "A", saldo := 0, tipo := "corrente", id_usuario := 1 }
      { id_categoria := 1, nome := "Mercado", tipo := "despesa", id_usuario := 1 }
      (by decide) (by decide) (by decide)

/-- C7: the generic account update writes a supplied `saldo` straight into
the stored row, whatever the transaction history in the store: the result
is the account with its balance overwritten. -/
theorem C7_update_conta_overwrites_saldo (uid cid : Nat) (v : Money) (db : DB) (conta : Conta)
    (hfind : findConta db cid uid = some conta) (hv : 0 ≤ v) :
    update_conta_endpoint uid cid { saldo := some v } db =
      (.ok { conta with saldo := v },
       { db with contas := db.contas.map fun c =>
           if c.id_conta = conta.id_conta then { conta with saldo := v } else c }) := by
  have hvalid : contaUpdateValid { saldo := some v } = true := by
    unfold contaUpdateValid
    simp [hv]
  unfold update_conta_endpoint
  rw [hvalid]
  simp [update_conta, hfind]

/-- C7 witness: overwriting the balance of an account that has a 50.00
income transaction with 0 succeeds, and desynchronizes the stored balance
from the transaction history (the invariant held before, not after). -/
theorem C7_witness :
    update_conta_endpoint 1 1 { saldo := some 0 } C7db =
      (.ok { id_conta := 1, nome := "A", saldo := 0, tipo := "corrente", id_usuario := 1 },
       { C7db with contas :=
          [ { id_conta := 1, nome := "A", saldo := 0, tipo := "corrente", id_usuario := 1 } ] }) ∧
    balanced zeroSeed C7db ∧
    ¬ balanced zeroSeed (update_conta_endpoint 1 1 { saldo := some 0 } C7db).2 := by
  refine ⟨?_, by decide, by decide⟩
  have h := C7_update_conta_overwrites_saldo 1 1 0 C7db
    { id_conta := 1, nome := "A", saldo := 5000, tipo := "corrente", id_usuario := 1 }
    (by decide) (by decide)
  rw [h]
  rfl

/-- C8: deleting a category removes, in the same operation, every
transaction referencing it (and the category itself); deleting a user
removes all accounts, categories and transactions owned by that user. -/
theorem C8_cascade_deletes :
    (∀ (uid cid : Nat) (db : DB) r db', delete_categoria uid cid db = (r, db') →
      resultOk r = true →
      (∀ t ∈ db'.transacoes, t.id_categoria ≠ cid) ∧
      ∀ g ∈ db'.categorias, g.id_categoria ≠ cid) ∧
    (∀ (cu uid : Nat) (db : DB) r db', delete_usuario cu uid db = (r, db') →
      resultOk r = true →
      (∀ c ∈ db'.contas, c.id_usuario ≠ uid) ∧
      (∀ g ∈ db'.categorias, g.id_usuario ≠ uid) ∧
      ∀ t ∈ db'.transacoes, t.id_usuario ≠ uid) := by
  constructor
  · intro uid cid db r db' h hok
    unfold delete_categoria at h
    split at h
    · cases h
      simp [resultOk] at hok
    · cases h
      constructor
      · intro t ht
        simp only [List.mem_filter, bne_iff_ne, ne_eq] at ht
        exact ht.2
      · intro g hg
        simp only [List.mem_filter, bne_iff_ne, ne_eq] at hg
        exact hg.2
  · intro cu uid db r db' h hok
    unfold delete_usuario at h
    split at h
    · cases h
      simp [resultOk] at hok
    · split at h
      · cases h
        simp [resultOk] at hok
      · cases h
        refine ⟨?_, ?_, ?_⟩
        · intro c hc
          simp only [List.mem_filter, bne_iff_ne, ne_eq] at hc
          exact hc.2
        · intro g hg
          simp only [List.mem_filter, bne_iff_ne, ne_eq] at hg
          exact hg.2
        · intro t ht
          simp only [List.mem_filter, Bool.not_eq_true', Bool.or_eq_false_iff,
            beq_eq_false_iff_ne, ne_eq] at ht
          exact ht.2.1.1

/-- C8 witness: on a concrete two-user store, deleting category 1 removes
its transactions and the category, and user 1 deleting itself removes all
of user 1's accounts, categories and transactions. -/
theorem C8_witness :
    ((∀ t ∈ ((delete_categoria 1 1 C8db).2).transacoes, t.id_categoria ≠ 1) ∧
      ∀ g ∈ ((delete_categoria 1 1 C8db).2).categorias, g.id_categoria ≠ 1) ∧
    ((∀ c ∈ ((delete_usuario 1 1 C8db).2).contas, c.id_usuario ≠ 1) ∧
      (∀ g ∈ ((delete_usuario 1 1 C8db).2).categorias, g.id_usuario ≠ 1) ∧
      ∀ t ∈ ((delete_usuario 1 1 C8db).2).transacoes, t.id_usuario ≠ 1) := by
  constructor
  · exact C8_cascade_deletes.1 1 1 C8db (delete_categoria 1 1 C8db).1
      (delete_categoria 1 1 C8db).2 rfl (by decide)
  · exact C8_cascade_deletes.2 1 1 C8db (delete_usuario 1 1 C8db).1
      (delete_usuario 1 1 C8db).2 rfl (by decide)

/-- C2 (counter-evidence): on a concrete store, an update that flips the
transaction kind to `despesa` while its category stays `receita` SUCCEEDS
and commits — `update_transacao` validates only existence/ownership of a
newly supplied category and never compares the post-update kind with the
category's kind. -/
theorem C2_update_skips_kind_check :
    resultOk (update_transacao_endpoint 1 1 C2upd C2db).1 = true ∧
    ((update_transacao_endpoint 1 1 C2upd C2db).2.transacoes.map Transacao.tipo)
      = ["despesa"] ∧
    ((update_transacao_endpoint 1 1 C2upd C2db).2.categorias.map Categoria.tipo)
      = ["receita"] ∧
    (update_transacao_endpoint 1 1 C2upd C2db).2 ≠ C2db := by
  decide

/-- C3 (counter-evidence): on the spec's reattribution scenario — account A
(id 1) with balance 100.00 from one income transaction, account B (id 2)
with balance 0 — updating the transaction's account reference to B leaves
A at 100.00 and B at 0.00 while the transaction row now references B: the
second half-step is applied to the stale old account object, not the new
account. -/
theorem C3_new_delta_hits_old_account :
    resultOk (update_transacao_endpoint 1 1 C3upd C3db).1 = true ∧
    ((update_transacao_endpoint 1 1 C3upd C3db).2.contas.map Conta.saldo)
      = [10000, 0] ∧
    ((update_transacao_endpoint 1 1 C3upd C3db).2.transacoes.map Transacao.id_conta)
      = [2] := by
  decide

/-- C1 (counterexample): a completed account-moving update breaks balance
consistency — before the update the store is balanced, the update reports
success, and afterwards the store is not balanced. -/
theorem C1_counterexample :
    balanced zeroSeed C1db ∧
    resultOk (update_transacao_endpoint 1 1 C1upd C1db).1 = true ∧
    ¬ balanced zeroSeed (opRun (.updateT 1 1 C1upd) C1db) := by
  decide

-- ===========================================================================
-- Helper lemmas
-- ===========================================================================

/-- Every transaction id in the list is bounded by the running maximum. -/
theorem tId_le_foldrMax (l : List Transacao) (t : Transacao) (ht : t ∈ l) :
    t.id_transacao ≤ l.foldr (fun x m => max x.id_transacao m) 0 := by
  induction l with
  | nil => cases ht
  | cons x xs ih =>
    rcases List.mem_cons.mp ht with rfl | hmem
    · exact Nat.le_max_left _ _
    · exact Nat.le_trans (ih hmem) (Nat.le_max_right _ _)

/-- The freshly assigned transaction id matches no existing row. -/
theorem find?_fresh_none (db : DB) (uid : Nat) :
    (db.transacoes.find? fun x =>
      x.id_transacao == nextTransacaoId db && x.id_usuario == uid) = none := by
  rw [List.find?_eq_none]
  intro x hx
  simp only [Bool.and_eq_true, beq_iff_eq, not_and]
  intro hid
  have hle := tId_le_foldrMax db.transacoes x hx
  unfold nextTransacaoId at hid
  omega

/-- Mapping with a function and then with a pointwise inverse is the
identity. -/
theorem map_comp_cancel (f g : Conta → Conta) (h : ∀ c, g (f c) = c) :
    ∀ l : List Conta, (l.map f).map g = l := by
  intro l
  induction l with
  | nil => rfl
  | cons x xs ih =>
    simp only [List.map_cons, h x, ih]

/-- Evaluation of `delete_transacao` when the transaction and its account
resolve. -/
theorem delete_transacao_eval (db : DB) (uid tid : Nat) (t : Transacao)
    (hfind : findTransacao db tid uid = some t)
    (hconta : (findContaById db t.id_conta).isSome = true) :
    delete_transacao uid tid db =
      (.ok "Transação deletada com sucesso",
       { applyDelta db t.id_conta (-(signedDelta t.tipo t.valor)) with
         transacoes := db.transacoes.filter fun x =>
           x.id_transacao != t.id_transacao }) := by
  rcases hc : findContaById db t.id_conta with _ | c
  · rw [hc] at hconta
    simp at hconta
  · simp only [delete_transacao, hfind, hc]
    rfl

/-- C4: a successful create followed by deleting the transaction just
created succeeds and restores every account row — in particular every
balance — exactly to its pre-create value. -/
theorem C4_create_delete_roundtrip (uid : Nat) (d : TransacaoCreate) (db : DB)
    (t : Transacao) (db1 : DB)
    (h : create_transacao_endpoint uid d db = (Except.ok t, db1)) :
    resultOk (delete_transacao uid t.id_transacao db1).1 = true ∧
    (delete_transacao uid t.id_transacao db1).2.contas = db.contas := by
  unfold create_transacao_endpoint at h
  split at h
  case isFalse => simp at h
  case isTrue hval =>
  cases hconta : findConta db d.id_conta uid with
  | none =>
    simp only [create_transacao, hconta] at h
    simp at h
  | some conta =>
  cases hcat : findCategoria db d.id_categoria uid with
  | none =>
    simp only [create_transacao, hconta, hcat] at h
    simp at h
  | some categoria =>
  by_cases htipo : d.tipo ≠ categoria.tipo
  · simp only [create_transacao, hconta, hcat] at h
    rw [if_pos htipo] at h
    simp at h
  · simp only [create_transacao, hconta, hcat] at h
    rw [if_neg htipo] at h
    simp only [Prod.mk.injEq, Except.ok.injEq] at h
    obtain ⟨hT, hDB⟩ := h
    subst hDB
    subst hT
    have hfindT : findTransacao
        { applyDelta db d.id_conta (signedDelta d.tipo d.valor) with
          transacoes := db.transacoes ++
            [{ id_transacao := nextTransacaoId db, valor := d.valor, data := d.data,
               descricao := d.descricao, tipo := d.tipo, id_usuario := uid,
               id_conta := d.id_conta, id_categoria := d.id_categoria }] }
        (nextTransacaoId db) uid = some
          { id_transacao := nextTransacaoId db, valor := d.valor, data := d.data,
            descricao := d.descricao, tipo := d.tipo, id_usuario := uid,
            id_conta := d.id_conta, id_categoria := d.id_categoria } := by
      unfold findTransacao
      show (db.transacoes ++ [_]).find? _ = _
      rw [List.find?_append, find?_fresh_none db uid]
      simp [List.find?]
    have hcmem := List.mem_of_find?_eq_some hconta
    have hcid : conta.id_conta = d.id_conta := by
      have hp := List.find?_some hconta
      simp only [Bool.and_eq_true, beq_iff_eq] at hp
      exact hp.1
    have hfindC : (findContaById
        { applyDelta db d.id_conta (signedDelta d.tipo d.valor) with
          transacoes := db.transacoes ++
            [{ id_transacao := nextTransacaoId db, valor := d.valor, data := d.data,
               descricao := d.descricao, tipo := d.tipo, id_usuario := uid,
               id_conta := d.id_conta, id_categoria := d.id_categoria }] }
        d.id_conta).isSome = true := by
      unfold findContaById
      rw [List.find?_isSome]
      refine ⟨if conta.id_conta = d.id_conta then
          { conta with saldo := conta.saldo + signedDelta d.tipo d.valor } else conta, ?_, ?_⟩
      · exact List.mem_map_of_mem _ hcmem
      · rw [if_pos hcid]
        simp [hcid]
    show resultOk (delete_transacao uid (nextTransacaoId db)
        { applyDelta db d.id_conta (signedDelta d.tipo d.valor) with
          transacoes := db.transacoes ++
            [{ id_transacao := nextTransacaoId db, valor := d.valor, data := d.data,
               descricao := d.descricao, tipo := d.tipo, id_usuario := uid,
               id_conta := d.id_conta, id_categoria := d.id_categoria }] }).1 = true ∧
      (delete_transacao uid (nextTransacaoId db)
        { applyDelta db d.id_conta (signedDelta d.tipo d.valor) with
          transacoes := db.transacoes ++
            [{ id_transacao := nextTransacaoId db, valor := d.valor, data := d.data,
               descricao := d.descricao, tipo := d.tipo, id_usuario := uid,
               id_conta := d.id_conta, id_categoria := d.id_categoria }] }).2.contas = db.contas
    rw [delete_transacao_eval _ uid _ _ hfindT hfindC]
    refine ⟨rfl, ?_⟩
    show ((db.contas.map _).map _) = db.contas
    apply map_comp_cancel
    intro c
    by_cases hc : c.id_conta = d.id_conta
    · have hc2 : ({ c with saldo := c.saldo + signedDelta d.tipo d.valor } : Conta).id_conta
          = d.id_conta := hc
      rw [if_pos hc, if_pos hc2]
      show ({ c with saldo :=
        c.saldo + signedDelta d.tipo d.valor + -(signedDelta d.tipo d.valor) } : Conta) = c
      rw [add_neg_cancel_right]
    · simp [hc]

/-- C4 witness: on a concrete store, creating an income of 50.00 (getting
id 6) and then deleting transaction 6 succeeds and restores the account
rows exactly. -/
theorem C4_witness :
    resultOk (delete_transacao 1 6
      { usuarios := [exUsuario]
        contas := [ { id_conta := 1, nome := "Checking", saldo := 5700, tipo := "corrente", id_usuario := 1 } ]
        categorias := [ { id_categoria := 1, nome := "Salário", tipo := "receita", id_usuario := 1 } ]
        transacoes :=
          [ { id_transacao := 5, valor := 700, data := 1, descricao := none,
              tipo := "receita", id_usuario := 1, id_conta := 1, id_categoria := 1 },
            { id_transacao := 6, valor := 5000, data := 2, descricao := some "bônus",
              tipo := "receita", id_usuario := 1, id_conta := 1, id_categoria := 1 } ] }).1 = true ∧
    (delete_transacao 1 6
      { usuarios := [exUsuario]
        contas := [ { id_conta := 1, nome := "Checking", saldo := 5700, tipo := "corrente", id_usuario := 1 } ]
        categorias := [ { id_categoria := 1, nome := "Salário", tipo := "receita", id_usuario := 1 } ]
        transacoes :=
          [ { id_transacao := 5, valor := 700, data := 1, descricao := none,
              tipo := "receita", id_usuario := 1, id_conta := 1, id_categoria := 1 },
            { id_transacao := 6, valor := 5000, data := 2, descricao := some "bônus",
              tipo := "receita", id_usuario := 1, id_conta := 1, id_categoria := 1 } ] }).2.contas
      = C4db.contas :=
  C4_create_delete_roundtrip 1 C4req C4db
    { id_transacao := 6, valor := 5000, data := 2, descricao := some "bônus",
      tipo := "receita", id_usuario := 1, id_conta := 1, id_categoria := 1 }
    { usuarios := [exUsuario]
      contas := [ { id_conta := 1, nome := "Checking", saldo := 5700, tipo := "corrente", id_usuario := 1 } ]
      categorias := [ { id_categoria := 1, nome := "Salário", tipo := "receita", id_usuario := 1 } ]
      transacoes :=
        [ { id_transacao := 5, valor := 700, data := 1, descricao := none,
            tipo := "receita", id_usuario := 1, id_conta := 1, id_categoria := 1 },
          { id_transacao := 6, valor := 5000, data := 2, descricao := some "bônus",
            tipo := "receita", id_usuario := 1, id_conta := 1, id_categoria := 1 } ] }
    (by rfl)

/-- `contaSum` over the empty list. -/
theorem contaSum_nil (cid : Nat) : contaSum [] cid = 0 := rfl

/-- `contaSum` distributes over append. -/
theorem contaSum_append (l1 l2 : List Transacao) (cid : Nat) :
    contaSum (l1 ++ l2) cid = contaSum l1 cid + contaSum l2 cid := by
  unfold contaSum
  rw [List.filter_append, List.map_append, List.sum_append]

/-- `contaSum` over a cons. -/
theorem contaSum_cons (t : Transacao) (l : List Transacao) (cid : Nat) :
    contaSum (t :: l) cid =
      (if t.id_conta = cid then signedDelta t.tipo t.valor else 0) + contaSum l cid := by
  by_cases h : t.id_conta = cid
  · simp [contaSum, List.filter_cons, h]
  · simp [contaSum, List.filter_cons, h]

/-- `contaSum` after appending one transaction. -/
theorem contaSum_append_single (l : List Transacao) (t : Transacao) (cid : Nat) :
    contaSum (l ++ [t]) cid =
      contaSum l cid + (if t.id_conta = cid then signedDelta t.tipo t.valor else 0) := by
  rw [contaSum_append, contaSum_cons, contaSum_nil, add_zero]

/-- A successful `find?` splits its list at the found element. -/
theorem find?_decomp {α : Type} (p : α → Bool) (l : List α) (a : α)
    (h : l.find? p = some a) : ∃ l1 l2, l = l1 ++ a :: l2 := by
  induction l with
  | nil => simp at h
  | cons x xs ih =>
    rw [List.find?_cons] at h
    cases hx : p x with
    | true =>
      simp only [hx] at h
      obtain rfl := Option.some.inj h
      exact ⟨[], xs, rfl⟩
    | false =>
      simp only [hx] at h
      obtain ⟨l1, l2, rfl⟩ := ih h
      exact ⟨x :: l1, l2, rfl⟩

/-- With distinct primary keys, no element outside the split shares the
split element's id. -/
theorem nodup_split_ne (l1 l2 : List Transacao) (t : Transacao)
    (h : ((l1 ++ t :: l2).map Transacao.id_transacao).Nodup) :
    ∀ x ∈ l1 ++ l2, x.id_transacao ≠ t.id_transacao := by
  rw [List.map_append, List.map_cons, List.nodup_append] at h
  obtain ⟨h1, h2, hdisj⟩ := h
  rw [List.nodup_cons] at h2
  intro x hx heq
  rcases List.mem_append.mp hx with hx1 | hx2
  · exact hdisj (List.mem_map_of_mem _ hx1) (by rw [heq]; exact List.mem_cons_self _ _)
  · exact h2.1 (by rw [← heq]; exact List.mem_map_of_mem _ hx2)

/-- Replacing by an id that occurs nowhere in the list is the identity. -/
theorem map_replace_of_ne (l : List Transacao) (tid : Nat) (t' : Transacao)
    (h : ∀ x ∈ l, x.id_transacao ≠ tid) :
    (l.map fun x => if x.id_transacao = tid then t' else x) = l := by
  induction l with
  | nil => rfl
  | cons x xs ih =>
    rw [List.map_cons, if_neg (h x (List.mem_cons_self x xs)),
        ih (fun y hy => h y (List.mem_cons_of_mem x hy))]

/-- Filtering out an id that occurs nowhere in the list keeps everything. -/
theorem filter_keep_of_ne (l : List Transacao) (tid : Nat)
    (h : ∀ x ∈ l, x.id_transacao ≠ tid) :
    (l.filter fun x => x.id_transacao != tid) = l := by
  induction l with
  | nil => rfl
  | cons x xs ih =>
    have hx : (x.id_transacao != tid) = true :=
      bne_iff_ne.mpr (h x (List.mem_cons_self x xs))
    rw [List.filter_cons, hx, if_pos rfl,
        ih (fun y hy => h y (List.mem_cons_of_mem x hy))]

/-- Effect on `contaSum` of replacing the row `t` by `t'` (primary keys
distinct). -/
theorem contaSum_replace (l1 l2 : List Transacao) (t t' : Transacao) (cid : Nat)
    (hne : ∀ x ∈ l1 ++ l2, x.id_transacao ≠ t.id_transacao) :
    contaSum ((l1 ++ t :: l2).map fun x =>
        if x.id_transacao = t.id_transacao then t' else x) cid
      = contaSum (l1 ++ t :: l2) cid
        - (if t.id_conta = cid then signedDelta t.tipo t.valor else 0)
        + (if t'.id_conta = cid then signedDelta t'.tipo t'.valor else 0) := by
  have h1 : ∀ x ∈ l1, x.id_transacao ≠ t.id_transacao :=
    fun x hx => hne x (List.mem_append_left _ hx)
  have h2 : ∀ x ∈ l2, x.id_transacao ≠ t.id_transacao :=
    fun x hx => hne x (List.mem_append_right _ hx)
  rw [List.map_append, List.map_cons, if_pos rfl,
      map_replace_of_ne _ _ _ h1, map_replace_of_ne _ _ _ h2,
      contaSum_append, contaSum_cons, contaSum_append, contaSum_cons]
  ring

/-- Effect on `contaSum` of removing the row `t` (primary keys distinct). -/
theorem contaSum_remove (l1 l2 : List Transacao) (t : Transacao) (cid : Nat)
    (hne : ∀ x ∈ l1 ++ l2, x.id_transacao ≠ t.id_transacao) :
    contaSum ((l1 ++ t :: l2).filter fun x =>
        x.id_transacao != t.id_transacao) cid
      = contaSum (l1 ++ t :: l2) cid
        - (if t.id_conta = cid then signedDelta t.tipo t.valor else 0) := by
  have h1 : ∀ x ∈ l1, x.id_transacao ≠ t.id_transacao :=
    fun x hx => hne x (List.mem_append_left _ hx)
  have h2 : ∀ x ∈ l2, x.id_transacao ≠ t.id_transacao :=
    fun x hx => hne x (List.mem_append_right _ hx)
  have hself : (t.id_transacao != t.id_transacao) = false := by simp
  rw [List.filter_append, List.filter_cons, hself, if_neg Bool.false_ne_true,
      filter_keep_of_ne _ _ h1, filter_keep_of_ne _ _ h2,
      contaSum_append, contaSum_append, contaSum_cons]
  ring

/-- Appending a transaction together with its own balance delta preserves
balance consistency. -/
theorem balanced_applyDelta_append (seed : Nat → Money) (db : DB) (t : Transacao)
    (hbal : balanced seed db) :
    balanced seed { applyDelta db t.id_conta (signedDelta t.tipo t.valor) with
                    transacoes := db.transacoes ++ [t] } := by
  intro c hc
  obtain ⟨c0, hc0, rfl⟩ := List.mem_map.mp hc
  dsimp only
  rw [contaSum_append_single]
  by_cases hid : c0.id_conta = t.id_conta
  · rw [if_pos hid]
    dsimp only
    rw [if_pos hid.symm, hbal c0 hc0]
    ring
  · rw [if_neg hid]
    rw [if_neg (fun hh => hid hh.symm), hbal c0 hc0]
    ring

/-- `create_transacao` preserves balance consistency (on failure the store
is unchanged; on success the new row and its delta balance out). -/
theorem balanced_create (seed : Nat → Money) (uid : Nat) (d : TransacaoCreate) (db : DB)
    (hbal : balanced seed db) :
    balanced seed (create_transacao uid d db).2 := by
  cases hconta : findConta db d.id_conta uid with
  | none => simp only [create_transacao, hconta]; exact hbal
  | some conta =>
  cases hcat : findCategoria db d.id_categoria uid with
  | none => simp only [create_transacao, hconta, hcat]; exact hbal
  | some categoria =>
  by_cases htipo : d.tipo ≠ categoria.tipo
  · simp only [create_transacao, hconta, hcat]
    rw [if_pos htipo]
    exact hbal
  · simp only [create_transacao, hconta, hcat]
    rw [if_neg htipo]
    exact balanced_applyDelta_append seed db
      { id_transacao := nextTransacaoId db, valor := d.valor, data := d.data,
        descricao := d.descricao, tipo := d.tipo, id_usuario := uid,
        id_conta := d.id_conta, id_categoria := d.id_categoria } hbal

/-- `delete_transacao` preserves balance consistency: the removed row and
the reversed delta cancel. -/
theorem balanced_delete (seed : Nat → Money) (uid tid : Nat) (db : DB)
    (hnd : (db.transacoes.map Transacao.id_transacao).Nodup)
    (hbal : balanced seed db) :
    balanced seed (delete_transacao uid tid db).2 := by
  cases hfind : findTransacao db tid uid with
  | none => simp only [delete_transacao, hfind]; exact hbal
  | some t =>
  cases hca : findContaById db t.id_conta with
  | none => simp only [delete_transacao, hfind, hca]; exact hbal
  | some ca =>
  simp only [delete_transacao, hfind, hca]
  have hfind' : db.transacoes.find?
      (fun x => x.id_transacao == tid && x.id_usuario == uid) = some t := hfind
  obtain ⟨l1, l2, hL⟩ := find?_decomp _ db.transacoes t hfind'
  have hne : ∀ x ∈ l1 ++ l2, x.id_transacao ≠ t.id_transacao :=
    nodup_split_ne l1 l2 t (by rw [← hL]; exact hnd)
  intro cc hcc
  obtain ⟨c0, hc0, rfl⟩ := List.mem_map.mp hcc
  have hbal0 := hbal c0 hc0
  rw [hL] at hbal0
  by_cases hid : c0.id_conta = t.id_conta
  · rw [if_pos hid]
    dsimp only [applyDelta]
    rw [hL, contaSum_remove _ _ _ _ hne, if_pos hid.symm, hbal0]
    ring
  · rw [if_neg hid]
    dsimp only [applyDelta]
    rw [hL, contaSum_remove _ _ _ _ hne, if_neg (fun hh => hid hh.symm), hbal0]
    ring

/-- `update_transacao` preserves balance consistency whenever the update
leaves the transaction's account reference unchanged: both half-steps and
the replaced row then concern the same account. -/
theorem balanced_update (seed : Nat → Money) (uid tid : Nat) (d : TransacaoUpdate) (db : DB)
    (hnd : (db.transacoes.map Transacao.id_transacao).Nodup)
    (hkeep : opKeepsConta (.updateT uid tid d) db)
    (hbal : balanced seed db) :
    balanced seed (update_transacao uid tid d db).2 := by
  cases hfind : findTransacao db tid uid with
  | none => simp only [update_transacao, hfind]; exact hbal
  | some t =>
  cases hrefs : checkUpdateRefs uid d db with
  | some e => simp only [update_transacao, hfind, hrefs]; exact hbal
  | none =>
  simp only [update_transacao, hfind, hrefs]
  have hkeep' : d.id_conta = none ∨ d.id_conta = some t.id_conta := by
    unfold opKeepsConta at hkeep
    simp only [hfind] at hkeep
    exact hkeep
  have hT'id : (update_applyFields t d).id_conta = t.id_conta := by
    unfold update_applyFields
    rcases hkeep' with h | h <;> rw [h] <;> rfl
  cases hca : findContaById db t.id_conta with
  | none => simp only [update_recalc, hca]; exact hbal
  | some ca =>
  simp only [update_recalc, hca]
  have hfind' : db.transacoes.find?
      (fun x => x.id_transacao == tid && x.id_usuario == uid) = some t := hfind
  obtain ⟨l1, l2, hL⟩ := find?_decomp _ db.transacoes t hfind'
  have hne : ∀ x ∈ l1 ++ l2, x.id_transacao ≠ t.id_transacao :=
    nodup_split_ne l1 l2 t (by rw [← hL]; exact hnd)
  intro cc hcc
  obtain ⟨c1, hc1, rfl⟩ := List.mem_map.mp hcc
  obtain ⟨c0, hc0, rfl⟩ := List.mem_map.mp hc1
  have hbal0 := hbal c0 hc0
  rw [hL] at hbal0
  by_cases hid : c0.id_conta = t.id_conta
  · rw [if_pos hid]
    dsimp only [applyDelta]
    rw [if_pos hid]
    dsimp only
    rw [hL, contaSum_replace _ _ _ _ _ hne, if_pos hid.symm, hT'id, if_pos hid.symm, hbal0]
    ring
  · rw [if_neg hid]
    dsimp only [applyDelta]
    rw [if_neg hid]
    rw [hL, contaSum_replace _ _ _ _ _ hne, if_neg (fun hh => hid hh.symm), hT'id,
        if_neg (fun hh => hid hh.symm), hbal0]
    ring

/-- C1: balance consistency is an invariant of every completed ledger
operation, PROVIDED an update does not change the transaction's account
reference: for any seed, any store with distinct transaction ids that is
balanced, and any create, delete, or account-preserving update, the store
after the operation is still balanced. -/
theorem C1_balance_preservation (seed : Nat → Money) (op : LedgerOp) (db : DB)
    (hnd : (db.transacoes.map Transacao.id_transacao).Nodup)
    (hkeep : opKeepsConta op db) (hbal : balanced seed db) :
    balanced seed (opRun op db) := by
  cases op with
  | createT uid d =>
    show balanced seed (create_transacao_endpoint uid d db).2
    unfold create_transacao_endpoint
    split
    · exact balanced_create seed uid d db hbal
    · exact hbal
  | updateT uid tid d =>
    show balanced seed (update_transacao_endpoint uid tid d db).2
    unfold update_transacao_endpoint
    split
    · exact balanced_update seed uid tid d db hnd hkeep hbal
    · exact hbal
  | deleteT uid tid =>
    show balanced seed (delete_transacao uid tid db).2
    exact balanced_delete seed uid tid db hnd hbal

/-- C1 witness: on the concrete balanced store, the amount-only update
(3000, account unchanged) completes and the store stays balanced. -/
theorem C1_witness :
    balanced zeroSeed (opRun (LedgerOp.updateT 1 1 C1wupd) C1db) :=
  C1_balance_preservation zeroSeed (LedgerOp.updateT 1 1 C1wupd) C1db
    (by decide) (by decide) (by decide)
